import Mathlib

/-!
Verification of the request-handling gateway of the proncoach25 repository
(file src/functions/api.ts): the in-memory TTL cache, the retry policy
executor, the operation handlers, and the dispatch entry point, shallowly
embedded in Lean 4.

Modelling conventions:
* JavaScript strings are Lean String values; the JS string methods used by
  the gateway (toLowerCase, includes, trim) are re-implemented structurally
  on the underlying character list so that they evaluate inside the kernel.
* A thrown JS Error is a JsError record holding the optional message and the
  optional numeric status field that the retry classifier inspects.
* Asynchronous upstream calls are modelled as a function from the attempt
  index to an Except outcome; time is an explicit Nat parameter (Date.now()).
  Backoff sleeps only affect timing, never results, and are elided.
* JSON values produced by JSON.parse are modelled by the inductive Json.
* The process-wide Map cache is an association list with unique keys;
  Map.set replaces, Map.delete removes, Map.get finds.
-/

/-- ASCII lower-casing of one character, as String.prototype.toLowerCase
acts on the ASCII range used by the gateway's cache keys. -/
def jsCharToLower (c : Char) : Char :=
  if 'A' ≤ c ∧ c ≤ 'Z' then Char.ofNat (c.toNat + 32) else c

/-- Model of JS s.toLowerCase(): lower-case every character. -/
def jsToLowerCase (s : String) : String := ⟨s.data.map jsCharToLower⟩

/-- Does the character list start with the given pattern list? -/
def charsStartWith : List Char → List Char → Bool
  | _, [] => true
  | [], _ :: _ => false
  | c :: cs, p :: ps => c == p && charsStartWith cs ps

/-- Does the character list contain the pattern list as a contiguous run? -/
def charsContain (text pat : List Char) : Bool :=
  match text with
  | [] => charsStartWith [] pat
  | _ :: rest => charsStartWith text pat || charsContain rest pat

/-- Model of JS s.includes(pat): substring containment. -/
def jsIncludes (s pat : String) : Bool := charsContain s.data pat.data

/-- Whitespace predicate for the trim model. -/
def isJsSpace (c : Char) : Bool := c == ' ' || c == '\t' || c == '\n' || c == '\r'

/-- Model of JS s.trim(): strip leading and trailing whitespace. -/
def jsTrim (s : String) : String :=
  ⟨((s.data.dropWhile isJsSpace).reverse.dropWhile isJsSpace).reverse⟩

/-- A thrown JS error as the gateway observes it: an optional message string
and an optional numeric status field (src/functions/api.ts line 42 reads
error.message and error.status). -/
structure JsError where
  message : Option String
  status : Option Nat
deriving Repr, DecidableEq

/-- Model of JS error.message?.includes(pat): false when the message is
absent. -/
def optMessageIncludes (m : Option String) (pat : String) : Bool :=
  match m with
  | some s => jsIncludes s pat
  | none => false

/-- Retryability classifier of src/functions/api.ts line 42: the message
contains 503, UNAVAILABLE or overloaded, or the status field is 503. -/
def isRetryable (e : JsError) : Bool :=
  optMessageIncludes e.message "503" || optMessageIncludes e.message "UNAVAILABLE" ||
    optMessageIncludes e.message "overloaded" || e.status == some 503

/-- The message-based part of the classifier: the failure message carries a
service-unavailable or overloaded marker. Implies isRetryable. -/
def hasUnavailableMarker (e : JsError) : Bool :=
  optMessageIncludes e.message "503" || optMessageIncludes e.message "UNAVAILABLE" ||
    optMessageIncludes e.message "overloaded"

/-- Message of the error substituted after retry exhaustion
(src/functions/api.ts line 50). -/
def busyMessage : String :=
  "The AI service is currently busy. Please try again in a few moments."

/-- The error thrown when a retryable failure exhausts the attempt budget. -/
def busyError : JsError := { message := some busyMessage, status := none }

/-- The error thrown if the while loop falls through without an explicit
return or throw (src/functions/api.ts line 56); reachable only when
maxRetries is 0. -/
def retriesExhaustedError : JsError :=
  { message := some "API call failed after multiple retries.", status := none }

/-- One iteration chain of the withRetry loop of src/functions/api.ts lines
34-57. The upstream call is a function from the attempt index to an outcome.
The fuel argument only forces termination; withRetry passes fuel = maxRetries
so that fuel never runs out while the loop guard attempt < maxRetries holds.
Returns the outcome together with the number of attempts made. The backoff
sleep and the delay doubling affect timing only and are elided. -/
def withRetryGo {α : Type} (apiCall : Nat → Except JsError α) (maxRetries : Nat) :
    Nat → Nat → Except JsError α × Nat
  | 0, attempt => (Except.error retriesExhaustedError, attempt)
  | fuel + 1, attempt =>
    if attempt < maxRetries then
      match apiCall attempt with
      | Except.ok v => (Except.ok v, attempt + 1)
      | Except.error e =>
        if isRetryable e && decide (attempt + 1 < maxRetries) then
          withRetryGo apiCall maxRetries fuel (attempt + 1)
        else if isRetryable e then (Except.error busyError, attempt + 1)
        else (Except.error e, attempt + 1)
    else (Except.error retriesExhaustedError, attempt)

/-- Model of withRetry (src/functions/api.ts lines 34-57): run the loop from
attempt 0. The default maxRetries in source is 3. -/
def withRetry {α : Type} (apiCall : Nat → Except JsError α) (maxRetries : Nat) :
    Except JsError α × Nat :=
  withRetryGo apiCall maxRetries maxRetries 0

/-- Cache TTL of src/functions/api.ts line 16: one hour in milliseconds. -/
def CACHE_TTL_MS : Nat := 60 * 60 * 1000

/-- The process-wide Map of src/functions/api.ts line 15, as an association
list from key to (timestamp, data). Keys are unique, as in a JS Map; the
operations below preserve uniqueness. -/
abbrev Cache (α : Type) := List (String × Nat × α)

/-- Model of cache.get(key): first entry with the key. -/
def cacheFind {α : Type} (c : Cache α) (k : String) : Option (Nat × α) :=
  match c with
  | [] => none
  | (k', ts, d) :: rest => if k' = k then some (ts, d) else cacheFind rest k

/-- Model of cache.delete(key): remove every entry with the key (a JS Map
holds at most one). -/
def cacheDelete {α : Type} (c : Cache α) (k : String) : Cache α :=
  match c with
  | [] => []
  | (k', ts, d) :: rest =>
    if k' = k then cacheDelete rest k else (k', ts, d) :: cacheDelete rest k

/-- Model of setCache (src/functions/api.ts lines 18-20): overwrite any entry
for the key with the new data stamped at the current time. -/
def setCache {α : Type} (c : Cache α) (k : String) (now : Nat) (d : α) : Cache α :=
  (k, now, d) :: cacheDelete c k

/-- Model of getCache (src/functions/api.ts lines 22-29): return the data
when an entry exists and now - timestamp < TTL (leaving the cache untouched);
otherwise delete the key and return nothing. Nat subtraction truncates at 0,
which agrees with the JS comparison now - timestamp < TTL when the clock has
not gone backwards, and also classifies a future-stamped entry as fresh
exactly as the JS signed comparison does. -/
def getCache {α : Type} (c : Cache α) (k : String) (now : Nat) : Option α × Cache α :=
  match cacheFind c k with
  | some (ts, d) =>
    if now - ts < CACHE_TTL_MS then (some d, c) else (none, cacheDelete c k)
  | none => (none, cacheDelete c k)

/-- A JSON value as produced by JSON.parse. -/
inductive Json where
  | null
  | bool (b : Bool)
  | num (n : Int)
  | str (s : String)
  | arr (xs : List Json)
  | obj (fields : List (String × Json))
deriving Repr

/-- Property lookup in a JSON object field list (first binding wins). -/
def lookupField : List (String × Json) → String → Option Json
  | [], _ => none
  | (k, v) :: rest, name => if k = name then some v else lookupField rest name

/-- Model of JS property access parsed.name on a JSON.parse result: a field
of an object, undefined (none) otherwise. (Access on a null value would
throw in JS; the gateway never reaches that case in the claims considered
here.) -/
def jsGetField : Json → String → Option Json
  | Json.obj fields, name => lookupField fields name
  | _, _ => none

/-- JS falsiness of a JSON.parse result value. -/
def jsFalsy : Json → Bool
  | Json.null => true
  | Json.bool b => !b
  | Json.num n => n == 0
  | Json.str s => s == ""
  | _ => false

/-- Error thrown by the generate-words parsing code when the words value is
missing, empty or not an array (src/functions/api.ts line 84). -/
def invalidFormatError : JsError :=
  { message := some "Invalid response format from API.", status := none }

/-- Error standing for the TypeError JS raises when .slice(0, 10) is applied
to a truthy value that is neither an array nor a string. Only its being a
thrown failure matters to the gateway. -/
def sliceTypeFailure : JsError :=
  { message := some "TypeError: value.slice is not a function", status := none }

/-- The generate-words response handling of src/functions/api.ts lines 82-86:
words = (parsed.words or []) sliced to the first 10; throw when the result is
not an array or is empty. A falsy or absent words value becomes the empty
array and hence the format error; an array is truncated to 10 entries and
rejected only when empty; a truthy non-array string survives .slice but fails
Array.isArray; any other truthy non-array has no .slice and throws. -/
def parseWords (parsed : Json) : Except JsError (List Json) :=
  match jsGetField parsed "words" with
  | some (Json.arr xs) =>
    if (xs.take 10).length = 0 then Except.error invalidFormatError
    else Except.ok (xs.take 10)
  | some v =>
    if jsFalsy v then Except.error invalidFormatError
    else match v with
      | Json.str _ => Except.error invalidFormatError
      | _ => Except.error sliceTypeFailure
  | none => Except.error invalidFormatError

/-- Cache key of handleGenerateWords (src/functions/api.ts line 63). -/
def wordsCacheKey (topic language : String) : String :=
  "words:" ++ jsToLowerCase topic ++ ":" ++ jsToLowerCase language

/-- Cache key of handleGenerateSpeech (src/functions/api.ts line 94). -/
def speechCacheKey (text voice : String) : String :=
  "speech:" ++ jsToLowerCase text ++ ":" ++ jsToLowerCase voice

/-- Cache key of handleGetTranslatedInstructions (src/functions/api.ts
line 151). -/
def instructionsCacheKey (languageName : String) : String :=
  "instructions:" ++ jsToLowerCase languageName

/-- Model of handleGenerateWords (src/functions/api.ts lines 62-91). The
provider argument maps the attempt index to the JSON.parse result of the
trimmed response text of that attempt, or to the thrown failure of the call
or parse. The cache is threaded explicitly; now is Date.now(), taken as one
instant for the handler run. Returns the outcome, the cache afterwards, and
the number of provider attempts made (0 on a cache hit). A cache hit is
returned directly; the cached word arrays are always truthy, so the JS
truthiness guard on the hit coincides with presence. -/
def handleGenerateWords (provider : Nat → Except JsError Json)
    (topic language : String) (now : Nat) (cache : Cache (List Json))
    (maxRetries : Nat) : Except JsError (List Json) × Cache (List Json) × Nat :=
  let cacheKey := wordsCacheKey topic language
  let probe := getCache cache cacheKey now
  match probe.1 with
  | some ws => (Except.ok ws, probe.2, 0)
  | none =>
    let run := withRetry (fun attempt =>
      match provider attempt with
      | Except.ok parsed => parseWords parsed
      | Except.error e => Except.error e) maxRetries
    match run.1 with
    | Except.ok ws => (Except.ok ws, setCache probe.2 cacheKey now ws, run.2)
    | Except.error e => (Except.error e, probe.2, run.2)

/-- Spec data-model check for an Assessment Result: the parsed value has an
integer score field and a string feedback field. The handler code itself
never performs this check; it is stated here to compare the spec's claimed
validation against the code's behaviour. -/
def hasValidAssessmentFields (j : Json) : Bool :=
  (match jsGetField j "score" with
   | some (Json.num _) => true
   | _ => false) &&
  (match jsGetField j "feedback" with
   | some (Json.str _) => true
   | _ => false)

/-- Model of handleAssessPronunciation (src/functions/api.ts lines 116-134).
jsonParse models the JSON.parse builtin; provider maps the attempt index to
the raw response text of that attempt or to the thrown failure of the call.
The word, language, audio and mimeType inputs shape only the provider
request, which the provider argument abstracts. The body is exactly
withRetry around (call, take response.text, trim, JSON.parse); the parsed
value is returned with no field validation. The cache is threaded untouched:
the source function contains no getCache or setCache call. -/
def handleAssessPronunciation {α : Type} (jsonParse : String → Except JsError Json)
    (provider : Nat → Except JsError String)
    (word language userAudioBase64 mimeType : String)
    (cache : Cache α) (maxRetries : Nat) :
    Except JsError Json × Cache α × Nat :=
  let run := withRetry (fun attempt =>
    match provider attempt with
    | Except.ok text => jsonParse (jsTrim text)
    | Except.error e => Except.error e) maxRetries
  (run.1, cache, run.2)

/-- An inbound HTTP request as the dispatch entry point sees it: a method
and a raw body. -/
structure HttpRequest where
  method : String
  body : String

/-- A response body: either plain text (the Method Not Allowed branch) or a
JSON document (every other branch serializes JSON). -/
inductive RespBody where
  | text (s : String)
  | json (j : Json)
deriving Repr

/-- An outbound HTTP response: status code and body. -/
structure HttpResponse where
  status : Nat
  body : RespBody

/-- The parsed action envelope: action name and payload. -/
structure Envelope where
  action : String
  payload : Json

/-- Observable side activity of one dispatch run: whether the request body
was parsed, and which handler, if any, was invoked. -/
structure DispatchTrace where
  bodyParsed : Bool
  handlerInvoked : Option String
deriving Repr, DecidableEq

/-- Message placed in the error envelope (src/functions/api.ts line 198):
error.message, or the fallback text when the message is absent or empty
(JS falsiness of the empty string). -/
def dispatchErrorMessage (e : JsError) : String :=
  match e.message with
  | some m => if m = "" then "An internal server error occurred." else m
  | none => "An internal server error occurred."

/-- The four recognized action names of the switch at src/functions/api.ts
lines 177-192. -/
def recognizedAction (a : String) : Bool :=
  a == "generateWords" || a == "generateSpeech" || a == "assessPronunciation" ||
    a == "getTranslatedInstructions"

/-- Model of the default export request handler (src/functions/api.ts lines
168-201). parseBody models await req.json() on the raw body (ok or thrown
parse failure); runAction abstracts the four handlers, mapping the action
name and payload to the handler outcome. A non-POST method is answered
immediately with status 405 and the plain text body Method Not Allowed,
before the body is parsed and before any handler runs; a body-parse failure
is caught and answered with status 500; an unrecognized action is answered
with status 400 and an Invalid action error document; a handler outcome is
answered with status 200 on success and status 500 with the failure's
message on failure. -/
def dispatch (parseBody : String → Except JsError Envelope)
    (runAction : String → Json → Except JsError Json)
    (req : HttpRequest) : HttpResponse × DispatchTrace :=
  if req.method ≠ "POST" then
    ({ status := 405, body := RespBody.text "Method Not Allowed" },
     { bodyParsed := false, handlerInvoked := none })
  else
    match parseBody req.body with
    | Except.error e =>
      ({ status := 500,
         body := RespBody.json (Json.obj [("error", Json.str (dispatchErrorMessage e))]) },
       { bodyParsed := true, handlerInvoked := none })
    | Except.ok env =>
      if recognizedAction env.action then
        match runAction env.action env.payload with
        | Except.ok r =>
          ({ status := 200, body := RespBody.json r },
           { bodyParsed := true, handlerInvoked := some env.action })
        | Except.error e =>
          ({ status := 500,
             body := RespBody.json (Json.obj [("error", Json.str (dispatchErrorMessage e))]) },
           { bodyParsed := true, handlerInvoked := some env.action })
      else
        ({ status := 400,
           body := RespBody.json (Json.obj [("error", Json.str "Invalid action")]) },
         { bodyParsed := true, handlerInvoked := none })

/-- A failure whose message carries a service-unavailable marker is classified
retryable. -/
theorem marker_retryable (e : JsError) (h : hasUnavailableMarker e = true) :
    isRetryable e = true := by
  unfold isRetryable
  unfold hasUnavailableMarker at h
  simp only [Bool.or_eq_true] at h ⊢
  tauto

/-- The busy-substitute message carries none of the three unavailability
markers, so a marker-carrying upstream message is never equal to it. -/
theorem marker_message_ne_busy (e : JsError) (h : hasUnavailableMarker e = true) :
    e.message ≠ some busyMessage := by
  intro heq
  unfold hasUnavailableMarker at h
  rw [heq] at h
  revert h
  decide

/-- Loop invariant of withRetry under an always-retryable operation: from any
attempt index below the bound, with fuel at least covering the remaining
iterations, the loop ends in the busy error after exactly maxRetries
attempts. -/
theorem withRetryGo_allRetryable {α : Type} (apiCall : Nat → Except JsError α)
    (maxRetries : Nat)
    (hfail : ∀ i, ∃ e, apiCall i = Except.error e ∧ isRetryable e = true) :
    ∀ fuel attempt, attempt < maxRetries → maxRetries ≤ attempt + fuel →
      withRetryGo apiCall maxRetries fuel attempt = (Except.error busyError, maxRetries) := by
  intro fuel
  induction fuel with
  | zero => intro attempt h1 h2; omega
  | succ fuel ih =>
    intro attempt h1 h2
    obtain ⟨e, he, hr⟩ := hfail attempt
    simp only [withRetryGo, if_pos h1, he]
    by_cases hlt : attempt + 1 < maxRetries
    · rw [if_pos (by simp [hr, hlt])]
      exact ih (attempt + 1) hlt (by omega)
    · rw [if_neg (by simp [hr, hlt]), if_pos hr]
      have hend : attempt + 1 = maxRetries := by omega
      rw [hend]

/-- Claim C1: an operation that fails on every attempt with a failure whose
message carries a service-unavailable or overloaded marker makes withRetry
perform exactly maxRetries attempts and then fail with the busy error, whose
message differs from every raw upstream failure message. -/
theorem withRetry_retryable_exhausts_attempts {α : Type}
    (apiCall : Nat → Except JsError α) (maxRetries : Nat)
    (hpos : 1 ≤ maxRetries)
    (hfail : ∀ i, ∃ e, apiCall i = Except.error e ∧ hasUnavailableMarker e = true) :
    withRetry apiCall maxRetries = (Except.error busyError, maxRetries) ∧
      ∀ i e, apiCall i = Except.error e → e.message ≠ some busyMessage := by
  constructor
  · exact withRetryGo_allRetryable apiCall maxRetries
      (fun i => (hfail i).imp (fun e hh => ⟨hh.1, marker_retryable e hh.2⟩))
      maxRetries 0 (by omega) (by omega)
  · intro i e he
    obtain ⟨f, hf, hm⟩ := hfail i
    rw [he] at hf
    injection hf with hef
    rw [hef]
    exact marker_message_ne_busy f hm

/-- Witness for Claim C1: the always-503 operation under maxRetries = 3 makes
3 attempts and yields the busy error. -/
theorem withRetry_retryable_exhausts_attempts_witness :
    withRetry (fun _ => (Except.error { message := some "503 Service Unavailable", status := none } :
        Except JsError Nat)) 3 = (Except.error busyError, 3) :=
  (withRetry_retryable_exhausts_attempts
    (fun _ => (Except.error { message := some "503 Service Unavailable", status := none } :
        Except JsError Nat)) 3 (by decide)
    (fun _ => ⟨{ message := some "503 Service Unavailable", status := none }, rfl, by decide⟩)).1

/-- Claim C5: an operation whose first failure is not retryable makes
withRetry fail immediately with exactly one attempt, propagating the original
failure unmodified, for every positive attempt bound. -/
theorem withRetry_fatal_first_attempt {α : Type} (apiCall : Nat → Except JsError α)
    (maxRetries : Nat) (hpos : 1 ≤ maxRetries) (e : JsError)
    (h0 : apiCall 0 = Except.error e) (hf : isRetryable e = false) :
    withRetry apiCall maxRetries = (Except.error e, 1) := by
  unfold withRetry
  obtain ⟨fuel, hfuel⟩ : ∃ f, maxRetries = f + 1 := ⟨maxRetries - 1, by omega⟩
  rw [hfuel]
  simp [withRetryGo, h0, hf]

/-- Witness for Claim C5: a format-error failure under maxRetries = 3 is
propagated unmodified after a single attempt. -/
theorem withRetry_fatal_first_attempt_witness :
    withRetry (fun _ => (Except.error invalidFormatError : Except JsError Nat)) 3 =
      (Except.error invalidFormatError, 1) :=
  withRetry_fatal_first_attempt
    (fun _ => (Except.error invalidFormatError : Except JsError Nat)) 3 (by decide)
    invalidFormatError rfl (by decide)

/-- Looking up a key right after setting it finds the new stamp and data. -/
theorem cacheFind_setCache_self {α : Type} (c : Cache α) (k : String) (t : Nat) (v : α) :
    cacheFind (setCache c k t v) k = some (t, v) := by
  simp [setCache, cacheFind]

/-- Deleting a key removes every entry for it. -/
theorem cacheFind_cacheDelete_self {α : Type} (c : Cache α) (k : String) :
    cacheFind (cacheDelete c k) k = none := by
  induction c with
  | nil => rfl
  | cons hd tl ih =>
    obtain ⟨k2, ts, d⟩ := hd
    by_cases h : k2 = k
    · simp [cacheDelete, h, ih]
    · simp [cacheDelete, cacheFind, h, ih]

/-- Claim C3: a get after a set of the same key, while now minus the
insertion time is below the TTL, returns exactly the stored value and leaves
the cache unchanged, so the insertion time is not refreshed: a later get at
or past insertion time plus TTL still finds the entry expired. -/
theorem getCache_fresh_after_setCache {α : Type} (c : Cache α) (k : String) (v : α)
    (t₀ t₁ : Nat) (hfresh : t₁ - t₀ < CACHE_TTL_MS) :
    getCache (setCache c k t₀ v) k t₁ = (some v, setCache c k t₀ v) ∧
      ∀ t₂, CACHE_TTL_MS ≤ t₂ - t₀ →
        (getCache ((getCache (setCache c k t₀ v) k t₁).2) k t₂).1 = none := by
  have hfind := cacheFind_setCache_self c k t₀ v
  have h1 : getCache (setCache c k t₀ v) k t₁ = (some v, setCache c k t₀ v) := by
    simp [getCache, hfind, hfresh]
  refine ⟨h1, ?_⟩
  intro t₂ ht₂
  rw [h1]
  have hstale : ¬ (t₂ - t₀ < CACHE_TTL_MS) := by omega
  simp [getCache, hfind, hstale]

/-- Witness for Claim C3: a value set at time 0 is returned by a get at
time 10. -/
theorem getCache_fresh_after_setCache_witness :
    getCache (setCache ([] : Cache Nat) "k" 0 7) "k" 10 =
      (some 7, setCache ([] : Cache Nat) "k" 0 7) :=
  (getCache_fresh_after_setCache ([] : Cache Nat) "k" 7 0 10 (by decide)).1

/-- Claim C4: a get on a key whose entry is at least TTL old removes the
entry and returns nothing, and a subsequent set on that key makes the new
value retrievable again within a fresh TTL window. -/
theorem getCache_expired_removes {α : Type} (c : Cache α) (k : String) (ts : Nat)
    (v : α) (now : Nat) (hfind : cacheFind c k = some (ts, v))
    (hexp : CACHE_TTL_MS ≤ now - ts) :
    getCache c k now = (none, cacheDelete c k) ∧
      cacheFind (cacheDelete c k) k = none ∧
      ∀ (w : α) (t₁ t₂ : Nat), t₂ - t₁ < CACHE_TTL_MS →
        (getCache (setCache (cacheDelete c k) k t₁ w) k t₂).1 = some w := by
  refine ⟨?_, cacheFind_cacheDelete_self c k, ?_⟩
  · have hstale : ¬ (now - ts < CACHE_TTL_MS) := by omega
    simp [getCache, hfind, hstale]
  · intro w t₁ t₂ h
    simp [getCache, cacheFind_setCache_self, h]

/-- Witness for Claim C4: an entry stamped at time 0 is removed by a get one
hour later. -/
theorem getCache_expired_removes_witness :
    getCache ([("k", 0, 7)] : Cache Nat) "k" 3600000 =
      (none, cacheDelete ([("k", 0, 7)] : Cache Nat) "k") :=
  (getCache_expired_removes ([("k", 0, 7)] : Cache Nat) "k" 0 7 3600000 (by decide)
    (by decide)).1

/-- Claim C6: inputs to the cacheable handlers that agree after lower-casing
produce identical cache keys for generate-words, generate-speech and
get-translated-instructions, so the calls resolve to the same cache entry. -/
theorem cacheKeys_case_insensitive
    (topic1 topic2 lang1 lang2 text1 text2 voice1 voice2 name1 name2 : String)
    (ht : jsToLowerCase topic1 = jsToLowerCase topic2)
    (hl : jsToLowerCase lang1 = jsToLowerCase lang2)
    (hx : jsToLowerCase text1 = jsToLowerCase text2)
    (hv : jsToLowerCase voice1 = jsToLowerCase voice2)
    (hn : jsToLowerCase name1 = jsToLowerCase name2) :
    wordsCacheKey topic1 lang1 = wordsCacheKey topic2 lang2 ∧
      speechCacheKey text1 voice1 = speechCacheKey text2 voice2 ∧
      instructionsCacheKey name1 = instructionsCacheKey name2 ∧
      ∀ (α : Type) (c : Cache α) (now : Nat),
        getCache c (wordsCacheKey topic1 lang1) now =
          getCache c (wordsCacheKey topic2 lang2) now := by
  have h1 : wordsCacheKey topic1 lang1 = wordsCacheKey topic2 lang2 := by
    unfold wordsCacheKey
    rw [ht, hl]
  refine ⟨h1, ?_, ?_, ?_⟩
  · unfold speechCacheKey
    rw [hx, hv]
  · unfold instructionsCacheKey
    rw [hn]
  · intro α c now
    rw [h1]

/-- Witness for Claim C6: Topic with English and topic with english share the
generate-words cache key. -/
theorem cacheKeys_case_insensitive_witness :
    wordsCacheKey "Topic" "English" = wordsCacheKey "topic" "english" :=
  (cacheKeys_case_insensitive "Topic" "topic" "English" "english" "Hi" "hi" "Kore" "kore"
    "Spanish" "spanish" (by decide) (by decide) (by decide) (by decide) (by decide)).1

/-- JSON.parse modelled at the one input the Claim C2 counterexample uses:
the two-character text of an open brace followed by a close brace parses to
the empty object; every other text is a parse failure. -/
def assessEmptyObjectParse : String → Except JsError Json :=
  fun s => if s = "\x7b\x7d" then Except.ok (Json.obj []) else
    Except.error { message := some "Unexpected token in JSON", status := none }

/-- Provider whose every attempt answers the empty-object response text. -/
def assessEmptyObjectProvider : Nat → Except JsError String :=
  fun _ => Except.ok "\x7b\x7d"

/-- Claim C2 counterexample: the provider answers the empty-object text, the
parse succeeds, the required score and feedback fields are missing, yet the
handler returns the empty object as a successful result instead of failing
with a response-shape error. -/
theorem handleAssessPronunciation_no_validation_cex :
    (handleAssessPronunciation assessEmptyObjectParse assessEmptyObjectProvider
        "cat" "English" "AAAA" "audio/webm" ([] : Cache Json) 3).1 =
      Except.ok (Json.obj []) ∧
      hasValidAssessmentFields (Json.obj []) = false :=
  ⟨rfl, rfl⟩

/-- Claim C2 amended: the assess-pronunciation handler fails only when the
provider call fails or the trimmed response text fails to parse as JSON;
every successfully parsed JSON value is returned as the result unchanged,
with no handler-side validation of the score and feedback fields (the field
shape is requested from the provider through the response schema but never
checked by the handler). -/
theorem handleAssessPronunciation_returns_parsed {α : Type}
    (jsonParse : String → Except JsError Json) (provider : Nat → Except JsError String)
    (word language userAudioBase64 mimeType : String) (cache : Cache α)
    (maxRetries : Nat) (hpos : 1 ≤ maxRetries) (text : String) (j : Json)
    (hp : provider 0 = Except.ok text) (hj : jsonParse (jsTrim text) = Except.ok j) :
    handleAssessPronunciation jsonParse provider word language userAudioBase64
        mimeType cache maxRetries = (Except.ok j, cache, 1) := by
  unfold handleAssessPronunciation withRetry
  obtain ⟨fuel, hfuel⟩ : ∃ f, maxRetries = f + 1 := ⟨maxRetries - 1, by omega⟩
  rw [hfuel]
  simp [withRetryGo, hp, hj]

/-- Witness for amended Claim C2: the concrete empty-object exchange returns
the parsed empty object with one attempt and an untouched cache; the returned
value fails the score and feedback validation, showing no validation occurs. -/
theorem handleAssessPronunciation_returns_parsed_witness :
    handleAssessPronunciation assessEmptyObjectParse assessEmptyObjectProvider
        "cat" "English" "AAAA" "audio/webm" ([] : Cache Json) 3 =
      (Except.ok (Json.obj []), ([] : Cache Json), 1) :=
  handleAssessPronunciation_returns_parsed assessEmptyObjectParse
    assessEmptyObjectProvider "cat" "English" "AAAA" "audio/webm" ([] : Cache Json) 3
    (by decide) "\x7b\x7d" (Json.obj []) rfl rfl

/-- Every successful generate-words parse yields at most 10 entries. -/
theorem parseWords_length_le (q : Json) (ws : List Json)
    (h : parseWords q = Except.ok ws) : ws.length ≤ 10 := by
  unfold parseWords at h
  split at h
  · split at h
    · cases h
    · injection h with h2
      rw [← h2, List.length_take]
      omega
  · split at h
    · cases h
    · split at h <;> cases h
  · cases h

/-- Claim C7 amended: a provider words list with more than 10 entries is
truncated to exactly its first 10 entries in order, and every successful
generate-words result has at most 10 entries; distinctness and single-word
shape are not enforced by the handler and so hold only as far as the provider
supplies them. -/
theorem parseWords_truncates (parsed : Json) (xs : List Json)
    (hwords : jsGetField parsed "words" = some (Json.arr xs)) (hlen : 10 < xs.length) :
    parseWords parsed = Except.ok (xs.take 10) ∧ (xs.take 10).length = 10 ∧
      ∀ (q : Json) (ws : List Json), parseWords q = Except.ok ws → ws.length ≤ 10 := by
  have hne : ¬ ((xs.take 10).length = 0) := by
    rw [List.length_take]
    omega
  refine ⟨?_, ?_, fun q ws h => parseWords_length_le q ws h⟩
  · simp only [parseWords, hwords]
    rw [if_neg hne]
  · rw [List.length_take]
    omega

/-- Claim C7 counterexample: an 11-entry provider words list of eleven copies
of one word is truncated to its first 10 entries, which are not pairwise
distinct, so the returned sequence is not a list of distinct words as the
claim states for every provider response. -/
theorem parseWords_duplicates_cex :
    parseWords (Json.obj [("words", Json.arr (List.replicate 11 (Json.str "a")))]) =
      Except.ok (List.replicate 10 (Json.str "a")) ∧
      ¬ (List.replicate 10 (Json.str "a")).Nodup :=
  ⟨rfl, by simp [List.nodup_replicate]⟩

/-- Witness for amended Claim C7: an 11-entry list is cut to its first 10. -/
theorem parseWords_truncates_witness :
    parseWords (Json.obj [("words", Json.arr (List.replicate 11 (Json.str "b")))]) =
      Except.ok (List.replicate 10 (Json.str "b")) := by
  have h := (parseWords_truncates
    (Json.obj [("words", Json.arr (List.replicate 11 (Json.str "b")))])
    (List.replicate 11 (Json.str "b")) rfl (by simp)).1
  rw [h]
  rfl

/-- Claim C9: the assess-pronunciation handler leaves the cache exactly as it
found it, and its outcome and attempt count are independent of the cache
contents, so no assessment result is ever read from or written to the cache. -/
theorem handleAssessPronunciation_cache_frame {α : Type}
    (jsonParse : String → Except JsError Json) (provider : Nat → Except JsError String)
    (word language userAudioBase64 mimeType : String) (maxRetries : Nat)
    (c1 c2 : Cache α) :
    (handleAssessPronunciation jsonParse provider word language userAudioBase64
        mimeType c1 maxRetries).2.1 = c1 ∧
      (handleAssessPronunciation jsonParse provider word language userAudioBase64
          mimeType c1 maxRetries).1 =
        (handleAssessPronunciation jsonParse provider word language userAudioBase64
          mimeType c2 maxRetries).1 ∧
      (handleAssessPronunciation jsonParse provider word language userAudioBase64
          mimeType c1 maxRetries).2.2 =
        (handleAssessPronunciation jsonParse provider word language userAudioBase64
          mimeType c2 maxRetries).2.2 :=
  ⟨rfl, rfl, rfl⟩

/-- Provider used by the first generate-words call of the Claim C10 theorem. -/
def collisionProviderX : Nat → Except JsError Json :=
  fun _ => Except.ok (Json.obj [("words", Json.arr [Json.str "x"])])

/-- Provider used by the second generate-words call of the Claim C10 theorem. -/
def collisionProviderY : Nat → Except JsError Json :=
  fun _ => Except.ok (Json.obj [("words", Json.arr [Json.str "y"])])

/-- Claim C10: cache-key construction is not injective across inputs holding
the delimiter: topic a:b with language c and topic a with language b:c are
distinct input pairs sharing one key, and a generate-words result cached for
the first pair is returned verbatim for the second with zero provider
attempts, although its own provider would have answered differently. -/
theorem wordsCacheKey_collision :
    wordsCacheKey "a:b" "c" = wordsCacheKey "a" "b:c" ∧
      ¬ (("a:b" : String) = "a" ∧ ("c" : String) = "b:c") ∧
      (handleGenerateWords collisionProviderY "a" "b:c" 0
          (handleGenerateWords collisionProviderX "a:b" "c" 0 [] 3).2.1 3).1 =
        Except.ok [Json.str "x"] ∧
      (handleGenerateWords collisionProviderY "a" "b:c" 0
          (handleGenerateWords collisionProviderX "a:b" "c" 0 [] 3).2.1 3).2.2 = 0 :=
  ⟨rfl, by decide, rfl, rfl⟩

/-- Body-parse model used by the Claim C8 concrete request: never reached on
a non-POST method. -/
def rejectAllParse : String → Except JsError Envelope :=
  fun _ => Except.error { message := some "unreachable", status := none }

/-- Handler table used by the Claim C8 concrete request: never reached on a
non-POST method. -/
def rejectAllRun : String → Json → Except JsError Json :=
  fun _ _ => Except.ok Json.null

/-- Claim C8 amended: every request whose method is not POST is answered with
status 405 and the fixed plain-text body Method Not Allowed, a non-empty
body, without parsing the request body and without invoking any handler. -/
theorem dispatch_method_not_allowed
    (parseBody : String → Except JsError Envelope)
    (runAction : String → Json → Except JsError Json) (req : HttpRequest)
    (h : req.method ≠ "POST") :
    dispatch parseBody runAction req =
      ({ status := 405, body := RespBody.text "Method Not Allowed" },
       { bodyParsed := false, handlerInvoked := none }) := by
  unfold dispatch
  rw [if_pos h]

/-- Claim C8 counterexample: a GET request is answered with the non-empty
plain-text body Method Not Allowed, not with an empty body as the claim
states. -/
theorem dispatch_method_not_allowed_body_cex :
    (dispatch rejectAllParse rejectAllRun { method := "GET", body := "" }).1.body =
      RespBody.text "Method Not Allowed" ∧
      RespBody.text "Method Not Allowed" ≠ RespBody.text "" := by
  refine ⟨rfl, ?_⟩
  intro h
  injection h with h2
  exact absurd h2 (by decide)

/-- Witness for amended Claim C8: the concrete GET request is rejected before
body parsing with no handler invoked. -/
theorem dispatch_method_not_allowed_witness :
    dispatch rejectAllParse rejectAllRun { method := "GET", body := "" } =
      ({ status := 405, body := RespBody.text "Method Not Allowed" },
       { bodyParsed := false, handlerInvoked := none }) :=
  dispatch_method_not_allowed rejectAllParse rejectAllRun
    { method := "GET", body := "" } (by decide)
